import Mathlib

/-!
Shallow embedding of the audio-guide-genv2 pipeline repository.

Source files embedded:
  src/utils/path_sanitizer.py  (keyword sanitizing and staging paths)
  src/utils/metadata.py        (metadata sidecar writing)
  src/pipelines/info_retrieval.py
  src/pipelines/script_gen.py
  src/pipelines/audio_gen.py   (including convert_to_wav, parse_audio_mime_type,
                                the backoff retry loop and its wait schedule)
  src/batch_runner.py          (merge_file_config, run_single_file, run_batch,
                                generate_batch_report)

Modelling conventions:
  * Python dicts holding YAML configuration values become association lists
    over an explicit value type; Python truthiness is modelled explicitly.
  * External collaborators (the OpenAI and Gemini clients, the prompt template
    loader, the process environment) are oracles in an `Env` record.
  * Side effects (the staging filesystem, outbound network calls, credential
    lookups, the per-item start banner) are threaded through a state `S`.
  * Wall-clock timestamps and durations are not modelled; no claim depends on
    a timestamp value. Logging (other than the per-item banner, which marks
    that an item was attempted) is not modelled.
  * A Python call that passes more positional arguments than the callee
    accepts, or a keyword argument the callee does not declare, raises
    TypeError before the callee body runs; the call wrappers below render
    that check explicitly because the pipelines call the 2-parameter path
    helpers with 3 arguments, and batch_runner/main call script_gen.run
    with an output_name keyword it does not declare.
-/

namespace AudioGuide

/-! ## Configuration values and Python dict semantics -/

/-- A value of a YAML-derived configuration dictionary. -/
inductive ConfigVal where
  | vBool (b : Bool)
  | vStr (s : String)
  | vInt (n : Int)
  | vFloat (q : ℚ)
  | vNone
deriving DecidableEq, Repr

/-- A Python dict with string keys, as an association list (keys unique by
construction in all inputs used here; lookups take the first binding). -/
abbrev Dict := List (String × ConfigVal)

/-- Python d[k] as an Option. -/
def dictLookup (d : Dict) (k : String) : Option ConfigVal :=
  match d with
  | [] => none
  | (k0, v) :: rest => if k0 = k then some v else dictLookup rest k

/-- Python d[k] = v: replace the first binding of `k`, else append. -/
def dictSet (d : Dict) (k : String) (v : ConfigVal) : Dict :=
  match d with
  | [] => [(k, v)]
  | (k0, v0) :: rest => if k0 = k then (k0, v) :: rest else (k0, v0) :: dictSet rest k v

/-- Python d.update(e): set every binding of `e` into `d`, in order. -/
def dictUpdate (d : Dict) (e : Dict) : Dict :=
  e.foldl (fun acc kv => dictSet acc kv.1 kv.2) d

/-- Python d.get(k, dflt). -/
def dictGetD (d : Dict) (k : String) (dflt : ConfigVal) : ConfigVal :=
  (dictLookup d k).getD dflt

/-- Python truthiness of a configuration value. -/
def pyTruthy : ConfigVal → Bool
  | .vBool b => b
  | .vStr s => !(s == "")
  | .vInt n => !(n == 0)
  | .vFloat q => !(q == 0)
  | .vNone => false

/-- Python d.get(k, dflt) where the context uses the value as a string; a present
string wins, anything else falls back to the default (the claims only exercise
string-valued or absent bindings for these keys). -/
def getStrD (d : Dict) (k : String) (dflt : String) : String :=
  match dictLookup d k with
  | some (.vStr s) => s
  | _ => dflt

/-- Python d.get(k, dflt) for the integer-valued max_retries binding. -/
def getNatD (d : Dict) (k : String) (dflt : Nat) : Nat :=
  match dictLookup d k with
  | some (.vInt n) => n.toNat
  | _ => dflt

/-- Python d[k] where the context needs a string: KeyError when absent, and a
non-string value where downstream code needs a string is collapsed to
TypeError. -/
inductive Err where
  | typeError
  | valueError
  | keyError
  | fileNotFound
  /-- an exception raised by an external API call, carrying its message -/
  | api (msg : String)
  /-- script_gen.run wraps the LLM exception: raise Exception(msg) from e -/
  | llmCallFailed (msg : String)
  /-- audio_gen wraps the post-backoff failure: the message names max_retries
  and the last underlying error -/
  | ttsExhausted (max_retries : Nat) (last : String)
  /-- BatchRunnerError raised by run_single_file, tagged with the file name -/
  | batchError (file_name : String) (e : Err)
deriving DecidableEq, Repr

def getStrKey (d : Dict) (k : String) : Except Err String :=
  match dictLookup d k with
  | some (.vStr s) => .ok s
  | some _ => .error .typeError
  | none => .error .keyError

/-! ## Python string helpers (on lists of characters) -/

/-- An ASCII whitespace character, as str.strip treats it. -/
def pyWhitespace (c : Char) : Bool :=
  c == ' ' || c == Char.ofNat 9 || c == Char.ofNat 10 ||
  c == Char.ofNat 13 || c == Char.ofNat 11 || c == Char.ofNat 12

/-- str.strip() of a character list. -/
def pyStrip (l : List Char) : List Char :=
  ((l.dropWhile pyWhitespace).reverse.dropWhile pyWhitespace).reverse

/-- str.split(sep) for a one-character separator. -/
def splitOnChar (sep : Char) : List Char → List (List Char)
  | [] => [[]]
  | c :: rest =>
    let r := splitOnChar sep rest
    if c == sep then [] :: r
    else
      match r with
      | [] => [[c]]
      | h :: t => (c :: h) :: t

/-- Does `l` begin with `p`? -/
def startsWithList : List Char → List Char → Bool
  | [], _ => true
  | _ :: _, [] => false
  | a :: ps, b :: ls => a == b && startsWithList ps ls

/-- str.lower() (ASCII arguments only are exercised). -/
def lowerList (l : List Char) : List Char :=
  l.map Char.toLower

/-- The part after the first occurrence of `sep`: s.split(sep, 1)[1], for
callers that already know `sep` occurs. -/
def afterFirst (sep : Char) : List Char → List Char
  | [] => []
  | c :: rest => if c == sep then rest else afterFirst sep rest

/-- Digit run of int(): digits, with single underscores allowed between
digits. Returns the accumulated value or none. -/
def pyIntDigitsAux : Nat → List Char → Option Nat
  | acc, [] => some acc
  | acc, '_' :: c :: rest =>
    if c.isDigit then pyIntDigitsAux (acc * 10 + (c.toNat - 48)) rest else none
  | _, ['_'] => none
  | acc, c :: rest =>
    if c.isDigit then pyIntDigitsAux (acc * 10 + (c.toNat - 48)) rest else none

def pyIntDigits : List Char → Option Nat
  | [] => none
  | c :: rest => if c.isDigit then pyIntDigitsAux (c.toNat - 48) rest else none

/-- Python int(str): surrounding whitespace stripped, optional sign, digits
with underscores between digits; none models the ValueError int() raises. -/
def pyParseInt (l : List Char) : Option Int :=
  match pyStrip l with
  | '+' :: rest => (pyIntDigits rest).map Int.ofNat
  | '-' :: rest => (pyIntDigits rest).map (fun n => -(n : Int))
  | t => (pyIntDigits t).map Int.ofNat

/-! ## src/utils/path_sanitizer.py -/

/-- The characters _INVALID_FILENAME_CHARS removes. -/
def isInvalidFilenameChar (c : Char) : Bool :=
  c == '<' || c == '>' || c == ':' || c == '\"' || c == '/' ||
  c == '\\' || c == '|' || c == '?' || c == '*'

/-- sanitize_keyword_for_path: strip the keyword, then remove every invalid
filename character (sequential str.replace of single characters = filter). -/
def sanitize_keyword_for_path (keyword : String) : String :=
  String.mk ((pyStrip keyword.toList).filter (fun c => !(isInvalidFilenameChar c)))

def info_markdown_path (keyword : String) (base_dir : String) : String :=
  base_dir ++ "/" ++ sanitize_keyword_for_path keyword ++ ".md"

def script_markdown_path (keyword : String) (base_dir : String) : String :=
  base_dir ++ "/" ++ sanitize_keyword_for_path keyword ++ "_script.md"

def audio_output_path (keyword : String) (base_dir : String) : String :=
  base_dir ++ "/" ++ sanitize_keyword_for_path keyword ++ ".mp3"

/-- A positional argument at a Python call site of the path helpers: the
pipelines pass keyword, directory and output_name (a string or None). -/
inductive PyArg where
  | strA (s : String)
  | noneA
deriving DecidableEq, Repr

def pyArgOfOpt : Option String → PyArg
  | some s => .strA s
  | none => .noneA

/-- Calling the 2-parameter helper info_markdown_path with a Python argument
list; any other arity raises TypeError before the helper body runs. -/
def call_info_markdown_path (args : List PyArg) : Except Err String :=
  match args with
  | [.strA keyword, .strA base_dir] => .ok (info_markdown_path keyword base_dir)
  | _ => .error .typeError

def call_script_markdown_path (args : List PyArg) : Except Err String :=
  match args with
  | [.strA keyword, .strA base_dir] => .ok (script_markdown_path keyword base_dir)
  | _ => .error .typeError

def call_audio_output_path (args : List PyArg) : Except Err String :=
  match args with
  | [.strA keyword, .strA base_dir] => .ok (audio_output_path keyword base_dir)
  | _ => .error .typeError

/-! ## audio_gen.py: parse_audio_mime_type and convert_to_wav -/

structure AudioParams where
  bits_per_sample : Int
  rate : Int
deriving DecidableEq, Repr

/-- One iteration of the parameter loop of parse_audio_mime_type. -/
def parseParam (p : AudioParams) (param0 : List Char) : AudioParams :=
  let param := pyStrip param0
  if startsWithList ("rate=".toList) (lowerList param) then
    match pyParseInt (afterFirst '=' param) with
    | some r => { p with rate := r }
    | none => p
  else if startsWithList ("audio/L".toList) param then
    match pyParseInt (afterFirst 'L' param) with
    | some b => { p with bits_per_sample := b }
    | none => p
  else p

/-- parse_audio_mime_type: defaults 16 bits / 24000 Hz, updated by rate= and
audio/L parameters of the MIME type. -/
def parse_audio_mime_type (mime_type : String) : AudioParams :=
  (splitOnChar ';' mime_type.toList).foldl parseParam ⟨16, 24000⟩

/-- struct.pack "<H": two little-endian bytes, struct.error outside 0..2^16-1. -/
def u16le? (n : Int) : Option (List Nat) :=
  if 0 ≤ n ∧ n < 65536 then some [n.toNat % 256, n.toNat / 256] else none

/-- struct.pack "<I": four little-endian bytes, struct.error outside 0..2^32-1. -/
def u32le? (n : Int) : Option (List Nat) :=
  if 0 ≤ n ∧ n < 4294967296 then
    some [n.toNat % 256, n.toNat / 256 % 256, n.toNat / 65536 % 256, n.toNat / 16777216 % 256]
  else none

def riffTag : List Nat := [82, 73, 70, 70]
def waveTag : List Nat := [87, 65, 86, 69]
def fmtTag : List Nat := [102, 109, 116, 32]
def dataTag : List Nat := [100, 97, 116, 97]

/-- convert_to_wav: the 44-byte canonical WAV header followed by the data.
`none` models the struct.error struct.pack raises when a field is out of its
format range. Division is Python floor division. -/
def convert_to_wav (audio_data : List Nat) (mime_type : String) : Option (List Nat) :=
  let parameters := parse_audio_mime_type mime_type
  let bits_per_sample := parameters.bits_per_sample
  let sample_rate := parameters.rate
  let num_channels : Int := 1
  let data_size : Int := (audio_data.length : Int)
  let bytes_per_sample := Int.fdiv bits_per_sample 8
  let block_align := num_channels * bytes_per_sample
  let byte_rate := sample_rate * block_align
  let chunk_size := 36 + data_size
  (u32le? chunk_size).bind fun cs =>
  (u32le? 16).bind fun sub1 =>
  (u16le? 1).bind fun afmt =>
  (u16le? num_channels).bind fun nch =>
  (u32le? sample_rate).bind fun sr =>
  (u32le? byte_rate).bind fun br =>
  (u16le? block_align).bind fun ba =>
  (u16le? bits_per_sample).bind fun bps =>
  (u32le? data_size).bind fun ds =>
  some (riffTag ++ cs ++ waveTag ++ fmtTag ++ sub1 ++ afmt ++ nch ++ sr ++ br ++
        ba ++ bps ++ dataTag ++ ds ++ audio_data)

/-! ## Effects, filesystem state and external oracles -/

/-- The sidecar of src/utils/metadata.py: keyword, pipeline, mode, optional
model, the artifact size when the artifact file already exists, plus extra
fields (e.g. voice). The wall-clock timestamp field is not modelled. -/
structure Metadata where
  keyword : String
  pipeline : String
  mode : String
  model : Option String
  file_size : Option Nat
  extra : List (String × ConfigVal)
deriving DecidableEq, Repr

/-- The per-item result dict built by run_single_file (timestamps omitted). -/
structure RunRecord where
  output_name : String
  keyword : String
  status : String
  error : Option Err
  audio_path : Option String
deriving DecidableEq, Repr

/-- The JSON report of generate_batch_report (timestamps/duration omitted). -/
structure BatchReport where
  track_name : String
  description : ConfigVal
  metadata : Dict
  total_files : Nat
  successful : Nat
  failed : Nat
  files : List RunRecord
deriving DecidableEq, Repr

/-- Content of a file in the staging tree. -/
inductive FileData where
  | text (s : String)
  | bin (b : List Nat)
  | meta (m : Metadata)
  | reportFile (r : BatchReport)
deriving DecidableEq, Repr

/-- st_size proxy: character count for text, byte count for binary. No claim
depends on the exact size of a multi-byte text artifact. -/
def fileSize : FileData → Nat
  | .text s => s.length
  | .bin b => b.length
  | .meta _ => 0
  | .reportFile _ => 0

/-- An observable side effect. -/
inductive Eff where
  /-- one outbound network request -/
  | netCall
  /-- os.getenv of an API credential -/
  | credRead
  /-- the start banner run_single_file logs for an item (marks an attempt) -/
  | itemStart (output_name : String)
deriving DecidableEq, Repr

/-- The mutable world: the staging filesystem and the effect trace. -/
structure S where
  fs : List (String × FileData)
  effs : List Eff
deriving DecidableEq, Repr

def sEmpty : S := ⟨[], []⟩

/-- Write (or overwrite) a file; reads take the most recent binding. -/
def fsWrite (s : S) (p : String) (d : FileData) : S :=
  { s with fs := (p, d) :: s.fs }

def fsRead? (s : S) (p : String) : Option FileData :=
  (s.fs.find? (fun e => e.1 == p)).map (·.2)

def addEff (s : S) (e : Eff) : S :=
  { s with effs := s.effs ++ [e] }

def netCalls (s : S) : Nat :=
  s.effs.countP (fun e => e == Eff.netCall)

def credReads (s : S) : Nat :=
  s.effs.countP (fun e => e == Eff.credRead)

def itemStarts (s : S) (name : String) : Nat :=
  s.effs.countP (fun e => e == Eff.itemStart name)

/-- External collaborators: process environment and hosted services. Each
service call is an oracle indexed by the number of network calls already made
(for the single-shot OpenAI calls) or by the attempt number within one
backoff-wrapped call (for the Gemini TTS body). -/
structure Env where
  openai_api_key : Option String
  gemini_api_key : Option String
  /-- client.responses.create (info stage): output_text or a raised message -/
  responses_create : Nat → Except String String
  /-- client.chat.completions.create (script stage) -/
  chat_completions_create : Nat → Except String String
  /-- one attempt of the audio body (streaming call + chunk accumulation,
  including its internal raise when no chunk carried data): the accumulated
  bytes or the raised message -/
  tts_attempt : Nat → Except String (List Nat)
  /-- load_prompt for info_retrieval: ok or FileNotFoundError -/
  load_prompt_info : String → Except Unit Unit
  /-- load_prompt for script_gen -/
  load_prompt_script : String → Except Unit Unit

/-! ## src/utils/metadata.py -/

/-- Path of the sidecar: with_suffix(suffix + ".metadata.json"), which for the
single-suffix artifact names used here appends ".metadata.json". -/
def metadata_sidecar_path (p : String) : String :=
  p ++ ".metadata.json"

/-- create_metadata / PipelineMetadata.save: file_size is recorded only when
the artifact file already exists; the JSON is written next to the artifact.
The write itself cannot fail in this model (its callers catch and swallow
failures anyway). -/
def create_metadata_write (keyword pipeline : String) (output_file_path : String)
    (mode : String) (model : Option String) (extra : List (String × ConfigVal))
    (s : S) : S :=
  let fsize := (fsRead? s output_file_path).map fileSize
  fsWrite s (metadata_sidecar_path output_file_path)
    (.meta ⟨keyword, pipeline, mode, model, fsize, extra⟩)

/-! ## The backoff library: on_exception(expo, max_tries, max_value, full_jitter)

backoff._retry counts a try per call of the target; on an exception it gives
up (re-raising the exception) when the try count has reached max_tries, else
sleeps and retries. The wait generator expo yields 2^n while that is below
max_value and max_value afterwards; full_jitter draws uniformly from
[0, wait]. The library loops forever when max_tries = 0; this embedding is
exercised for max_tries >= 1 only (fuel = max_tries). -/

/-- The retry loop: `tries` calls already made, fuel bounds the recursion.
Returns the final result and the number of calls made. -/
def retryGo (call : Nat → Except String α) (max_tries : Nat) :
    Nat → Nat → Except String α × Nat
  | 0, _ => (.error "", 0)
  | fuel + 1, tries =>
    match call tries with
    | .ok a => (.ok a, 1)
    | .error e =>
      if tries + 1 == max_tries then (.error e, 1)
      else
        let r := retryGo call max_tries fuel (tries + 1)
        (r.1, r.2 + 1)

def retryRun (call : Nat → Except String α) (max_tries : Nat) :
    Except String α × Nat :=
  retryGo call max_tries max_tries 0

/-- The pre-jitter wait backoff.expo (base 2, factor 1) yields before retry
t (t = 0, 1, ...), capped at max_value. -/
def expoWait (max_value : ℚ) (t : Nat) : ℚ :=
  if (2 : ℚ) ^ t < max_value then (2 : ℚ) ^ t else max_value

/-- The realized waits under full_jitter: `u t` is the uniform draw in [0, 1]
scaling the t-th pre-jitter wait; `n` waits separate `n + 1` attempts. -/
def jitteredDelays (u : Nat → ℚ) (max_value : ℚ) (n : Nat) : List ℚ :=
  (List.range n).map (fun t => u t * expoWait max_value t)

/-! ## src/pipelines/info_retrieval.py -/

/-- Model of _get_mock_data: the source returns a fixed Korean markdown template whose
first line is "# {keyword}"; only its shape (deterministic, non-blank, headed
by the keyword) matters here, so the body is abbreviated. -/
def info_get_mock_data (keyword : String) : String :=
  "# " ++ keyword ++ "\n\n## overview\nmock data for the keyword\n"

/-- Model of _validate_api_key: os.getenv("OPENAI_API_KEY"); absent or empty is falsy
and raises ValueError. -/
def info_validate_api_key (env : Env) (s : S) : Except Err String × S :=
  let s1 := addEff s .credRead
  match env.openai_api_key with
  | none => (.error .valueError, s1)
  | some k => if k == "" then (.error .valueError, s1) else (.ok k, s1)

/-- Model of _search_with_llm: validate the key, load the prompt template, then a
single client.responses.create call. A raised call exception is re-raised
unchanged; there is no retry here. -/
def info_search_with_llm (env : Env) (keyword model prompt_version : String)
    (s : S) : Except Err String × S :=
  match info_validate_api_key env s with
  | (.error e, s1) => (.error e, s1)
  | (.ok _, s1) =>
    match env.load_prompt_info prompt_version with
    | .error _ => (.error .fileNotFound, s1)
    | .ok _ =>
      let s2 := addEff s1 .netCall
      match env.responses_create (netCalls s1) with
      | .ok content => (.ok content, s2)
      | .error msg => (.error (.api msg), s2)

/-- info_retrieval.run. The source line
  output_path = info_markdown_path(keyword, output_dir, output_name)
passes three positional arguments to the 2-parameter helper, so the path
computation raises TypeError after the content step. -/
def info_retrieval_run (env : Env) (keyword : String) (output_dir : Option String)
    (model : String) (prompt_version : String) (dry_run : Bool)
    (output_name : Option String) (s : S) : Except Err String × S :=
  if pyStrip keyword.toList == [] then (.error .valueError, s)
  else
    let kw := String.mk (pyStrip keyword.toList)
    let dir := output_dir.getD (if dry_run then "outputs/mock/info" else "outputs/info")
    let step : Except Err String × S :=
      if dry_run then (.ok (info_get_mock_data kw), s)
      else info_search_with_llm env kw model prompt_version s
    match step with
    | (.error e, s1) => (.error e, s1)
    | (.ok content, s1) =>
      match call_info_markdown_path [.strA kw, .strA dir, pyArgOfOpt output_name] with
      | .error e => (.error e, s1)
      | .ok output_path =>
        let s2 := fsWrite s1 output_path (.text content)
        let s3 := create_metadata_write kw "info_retrieval" output_path
          (if dry_run then "dry_run" else "production")
          (if dry_run then none else some model) [] s2
        (.ok output_path, s3)

/-! ## src/pipelines/script_gen.py -/

/-- Model of _generate_dry_run_script: a fixed Korean markdown template headed by the
keyword and trailed by the prompt version; abbreviated as for the info mock. -/
def generate_dry_run_script (keyword prompt_version : String) : String :=
  "# " ++ keyword ++ " audio guide\n\nmock script body\n" ++
  "[DRY RUN - prompt version: " ++ prompt_version ++ "]\n"

/-- script_gen.run. Source order: resolve both paths (2-argument helper calls,
well-formed here), load the prompt template, dry_run branch, else check the
info file exists (existence only: the content is read and used whatever it
is), check the API key, make a single chat.completions.create call (a raised
exception is wrapped and re-raised; no retry), save the script. -/
def script_gen_run (env : Env) (keyword : String) (info_dir output_dir : Option String)
    (prompt_version : String) (dry_run : Bool) (temperature : ℚ) (model : String)
    (s : S) : Except Err String × S :=
  let idir := info_dir.getD "outputs/info"
  let odir := output_dir.getD "outputs/script"
  let info_file := info_markdown_path keyword idir
  let output_file := script_markdown_path keyword odir
  match env.load_prompt_script prompt_version with
  | .error _ => (.error .fileNotFound, s)
  | .ok _ =>
    if dry_run then
      (.ok output_file, fsWrite s output_file (.text (generate_dry_run_script keyword prompt_version)))
    else
      match fsRead? s info_file with
      | none => (.error .fileNotFound, s)
      | some _fd =>
        let s1 := addEff s .credRead
        match env.openai_api_key with
        | none => (.error .valueError, s1)
        | some k =>
          if k == "" then (.error .valueError, s1)
          else
            let s2 := addEff s1 .netCall
            match env.chat_completions_create (netCalls s1) with
            | .error msg => (.error (.llmCallFailed msg), s2)
            | .ok script_content =>
              (.ok output_file, fsWrite s2 output_file (.text script_content))

/-- Calling script_gen.run the way batch_runner.run_single_file and
main.run_full_pipeline do, with an output_name keyword argument: run() does
not declare that parameter, so Python raises TypeError before the body runs.
The last argument holds the kwarg when the call site passes one. -/
def script_gen_run_kwcall (env : Env) (keyword : String)
    (info_dir output_dir : Option String) (prompt_version : String)
    (dry_run : Bool) (temperature : ℚ) (model : String)
    (output_name_kwarg : Option (Option String)) (s : S) : Except Err String × S :=
  match output_name_kwarg with
  | some _ => (.error .typeError, s)
  | none => script_gen_run env keyword info_dir output_dir prompt_version dry_run temperature model s

/-! ## src/pipelines/audio_gen.py -/

/-- Model of _read_script: FileNotFoundError when absent, ValueError when the content
strips to nothing. Reading a non-text file with open(..., "r") would raise a
decode error; collapsed to ValueError and never exercised by the claims. -/
def read_script (s : S) (script_path : String) : Except Err String :=
  match fsRead? s script_path with
  | none => .error .fileNotFound
  | some (.text content) =>
    if pyStrip content.toList == [] then .error .valueError else .ok content
  | some _ => .error .valueError

/-- Model of _create_dummy_audio: the 12 header bytes plus 100 zero bytes. -/
def create_dummy_audio_bytes : List Nat :=
  [0xFF, 0xFB, 0x90, 0x00, 0x00, 0x00, 0x00, 0x00, 0x49, 0x6E, 0x66, 0x6F] ++
  List.replicate 100 0

/-- Model of _generate_audio_gemini: check GEMINI_API_KEY (falsy value raises
ValueError, never retried), then run the backoff-wrapped body; each attempt
is one network call. Exhaustion wraps the last underlying error together with
max_retries; success writes the accumulated bytes to the output path.
The text/voice/model/speed arguments shape the request only; initial_wait is
accepted by the source but never handed to the backoff decorator. -/
def generate_audio_gemini (env : Env) (text : String) (output_path : String)
    (voice model : String) (max_retries : Nat) (s : S) : Except Err Unit × S :=
  let s1 := addEff s .credRead
  match env.gemini_api_key with
  | none => (.error .valueError, s1)
  | some k =>
    if k == "" then (.error .valueError, s1)
    else
      let r := retryRun env.tts_attempt max_retries
      let s2 : S := { s1 with effs := s1.effs ++ List.replicate r.2 .netCall }
      match r.1 with
      | .error e => (.error (.ttsExhausted max_retries e), s2)
      | .ok final_audio => (.ok (), fsWrite s2 output_path (.bin final_audio))

/-- audio_gen.run. The source lines
  script_path = script_markdown_path(keyword, script_dir, output_name)
  output_path = audio_output_path(keyword, output_dir, output_name)
pass three positional arguments to 2-parameter helpers, so the path
computation raises TypeError before the script is read. -/
def audio_gen_run (env : Env) (keyword : String) (script_dir output_dir : Option String)
    (voice model : String) (max_retries : Nat) (dry_run : Bool)
    (output_name : Option String) (s : S) : Except Err String × S :=
  let sdir := script_dir.getD (if dry_run then "outputs/mock/script" else "outputs/script")
  let odir := output_dir.getD (if dry_run then "outputs/mock/audio" else "outputs/audio")
  match call_script_markdown_path [.strA keyword, .strA sdir, pyArgOfOpt output_name] with
  | .error e => (.error e, s)
  | .ok script_path =>
    match call_audio_output_path [.strA keyword, .strA odir, pyArgOfOpt output_name] with
    | .error e => (.error e, s)
    | .ok output_path =>
      match read_script s script_path with
      | .error e => (.error e, s)
      | .ok script_text =>
        if dry_run then
          let s1 := fsWrite s output_path (.bin create_dummy_audio_bytes)
          let s2 := create_metadata_write keyword "audio_gen" output_path "dry_run"
            (some model) [("voice", .vStr voice)] s1
          (.ok output_path, s2)
        else
          match generate_audio_gemini env script_text output_path voice model max_retries s with
          | (.error e, s1) => (.error e, s1)
          | (.ok _, s1) =>
            let s2 := create_metadata_write keyword "audio_gen" output_path "production"
              (some model) [("voice", .vStr voice)] s1
            (.ok output_path, s2)

/-! ## src/batch_runner.py -/

/-- merge_file_config: merged = defaults.copy(); merged.update(file_config);
per-file keys win. -/
def merge_file_config (file_config defaults : Dict) : Dict :=
  dictUpdate defaults file_config

/-- The dry_run run_single_file extracts from the merged config:
file_config.get("dry_run", False), used under Python truthiness. -/
def single_file_dry_run (file_config : Dict) : Bool :=
  pyTruthy (dictGetD file_config "dry_run" (.vBool false))

structure TrackDirs where
  track_root : String
  info : String
  script : String
  audio : String
deriving DecidableEq, Repr

/-- create_track_directories with the default base outputs/tracks (the mkdir
side effects are not modelled). -/
def create_track_directories (track_name : String) : TrackDirs :=
  let root := "outputs/tracks/" ++ sanitize_keyword_for_path track_name
  ⟨root, root ++ "/info", root ++ "/script", root ++ "/audio"⟩

/-- run_single_file: extract output_name/keyword (a missing key raises
KeyError outside the try block), log the item banner, then the three stage
calls in order. A stage exception is caught and re-raised as BatchRunnerError
tagged with the file name; the locally built failed-result dict is discarded
by that re-raise and never reaches the caller. On success the success record
is returned. -/
def run_single_file (env : Env) (file_config : Dict) (track_dirs : TrackDirs)
    (file_index total_files : Nat) (s : S) : Except Err RunRecord × S :=
  match getStrKey file_config "output_name" with
  | .error e => (.error e, s)
  | .ok output_name =>
    match getStrKey file_config "keyword" with
    | .error e => (.error e, s)
    | .ok keyword =>
      let dry_run := single_file_dry_run file_config
      let s0 := addEff s (.itemStart output_name)
      match info_retrieval_run env keyword (some track_dirs.info)
          (getStrD file_config "model" "gpt-4.1") "default" dry_run
          (some output_name) s0 with
      | (.error e, s1) => (.error (.batchError output_name e), s1)
      | (.ok _info_path, s1) =>
        match script_gen_run_kwcall env keyword (some track_dirs.info)
            (some track_dirs.script) (getStrD file_config "prompt_version" "v2-tts")
            dry_run (7 / 10) (getStrD file_config "model" "gpt-4.1")
            (some (some output_name)) s1 with
        | (.error e, s2) => (.error (.batchError output_name e), s2)
        | (.ok _script_path, s2) =>
          match audio_gen_run env keyword (some track_dirs.script)
              (some track_dirs.audio) (getStrD file_config "voice" "Zephyr")
              (getStrD file_config "tts_model" "gemini-2.5-pro-preview-tts")
              (getNatD file_config "max_retries" 8) dry_run (some output_name) s2 with
          | (.error e, s3) => (.error (.batchError output_name e), s3)
          | (.ok audio_path, s3) =>
            (.ok ⟨output_name, keyword, "success", none, some audio_path⟩, s3)

/-- The batch configuration dict: its recognized top-level keys as fields so
that mutation of the shared defaults dict is observable. -/
structure TrackConfig where
  track_name : String
  description : Option ConfigVal
  metadata : Option Dict
  defaults : Option Dict
  files : List Dict
deriving DecidableEq, Repr

/-- generate_batch_report: build the report from the results list and write it
at track_root/batch_report.json. -/
def generate_batch_report (track_config : TrackConfig) (results : List RunRecord)
    (track_dirs : TrackDirs) (s : S) : BatchReport × S :=
  let report : BatchReport :=
    { track_name := track_config.track_name
      description := track_config.description.getD (.vStr "")
      metadata := track_config.metadata.getD []
      total_files := results.length
      successful := (results.filter (fun r => r.status == "success")).length
      failed := (results.filter (fun r => r.status == "failed")).length
      files := results }
  (report, fsWrite s (track_dirs.track_root ++ "/batch_report.json") (.reportFile report))

/-- Only BatchRunnerError is caught by run_batch's partial-report handler. -/
def isBatchRunnerError : Err → Bool
  | .batchError _ _ => true
  | _ => false

/-- The for-loop of run_batch: merge each entry over the defaults, run it,
append its success record; the first error stops the loop with the records
accumulated so far. -/
def batch_loop (env : Env) (defaults : Dict) (track_dirs : TrackDirs)
    (total_files : Nat) : List Dict → Nat → List RunRecord → S →
    Option Err × List RunRecord × S
  | [], _idx, acc, s => (none, acc, s)
  | file_item :: rest, idx, acc, s =>
    let file_config := merge_file_config file_item defaults
    match run_single_file env file_config track_dirs idx total_files s with
    | (.error e, s1) => (some e, acc, s1)
    | (.ok r, s1) =>
      batch_loop env defaults track_dirs total_files rest (idx + 1) (acc ++ [r]) s1

structure BatchSummary where
  track_name : String
  successful : Nat
  failed : Nat
  total : Nat
  report_path : String
  audio_dir : String
deriving DecidableEq, Repr

/-- run_batch. defaults = track_config.get("defaults", {}); a non-None
override_dry_run is assigned into that dict, mutating the caller's
track_config in place when the key was present (the returned TrackConfig is
the caller's object after the call). The loop aborts on the first error; a
BatchRunnerError gets a partial report before being re-raised, any other
exception propagates without a report. -/
def run_batch (env : Env) (track_config : TrackConfig)
    (override_dry_run : Option Bool) (s : S) :
    Except Err BatchSummary × TrackConfig × S :=
  let defaults0 := track_config.defaults.getD []
  let defaults :=
    match override_dry_run with
    | none => defaults0
    | some v => dictSet defaults0 "dry_run" (.vBool v)
  let track_config2 :=
    match track_config.defaults, override_dry_run with
    | some _, some _ => { track_config with defaults := some defaults }
    | _, _ => track_config
  let total_files := track_config.files.length
  let track_dirs := create_track_directories track_config.track_name
  let finished : Except Err BatchSummary × S :=
    match batch_loop env defaults track_dirs total_files track_config.files 1 [] s with
    | (some e, results, s1) =>
      if isBatchRunnerError e then
        let rs := generate_batch_report track_config2 results track_dirs s1
        (.error e, rs.2)
      else
        (.error e, s1)
    | (none, results, s1) =>
      let rs := generate_batch_report track_config2 results track_dirs s1
      let successful := (results.filter (fun r => r.status == "success")).length
      let failed := (results.filter (fun r => r.status == "failed")).length
      (.ok ⟨track_config.track_name, successful, failed, total_files,
            track_dirs.track_root ++ "/batch_report.json", track_dirs.audio⟩,
       rs.2)
  (finished.1, track_config2, finished.2)

/-! ## Claim statements, concrete environments and inputs -/

/-- No credential configured; services unreachable; prompt templates load. -/
def envNoKeys : Env :=
  ⟨none, none, fun _ => .error "down", fun _ => .error "down",
   fun _ => .error "down", fun _ => .ok (), fun _ => .ok ()⟩

/-- Credentials configured; every service call raises. -/
def envApisDown : Env :=
  ⟨some "key", some "key", fun _ => .error "boom", fun _ => .error "boom",
   fun _ => .error "boom", fun _ => .ok (), fun _ => .ok ()⟩

/-- Credentials configured; every service call succeeds. -/
def envApisUp : Env :=
  ⟨some "key", some "key", fun _ => .ok "info text", fun _ => .ok "generated script",
   fun _ => .ok [1, 2, 3], fun _ => .ok (), fun _ => .ok ()⟩

def cfgC9 : TrackConfig :=
  { track_name := "t", description := none, metadata := none,
    defaults := some [("model", .vStr "A")], files := [] }

def cfgC9defaults : Dict := [("model", ConfigVal.vStr "A")]

/-- Claim C2 as stated: for every file entry and defaults map, a non-None
override v makes the effective dry_run of the entry equal to v, regardless of
what the defaults or the entry specify. The override is applied exactly as
run_batch applies it (assignment into the defaults dict) and the effective
value is exactly what run_single_file computes from the merged config. -/
def C2_claim : Prop :=
  ∀ (entry defaults : Dict) (v : Bool),
    single_file_dry_run (merge_file_config entry (dictSet defaults "dry_run" (.vBool v))) = v

/-- The info stage retries: with a valid credential and an external call that
always raises, at least two call attempts occur. (This is the info instance of
the spec's claim that all three stage executors share one bounded
retry-with-backoff contract.) -/
def C4_info_retries : Prop :=
  ∀ (env : Env) (keyword model version k : String) (s : S),
    env.openai_api_key = some k → ¬k = "" →
    (∀ i, env.responses_create i = .error "boom") →
    2 ≤ netCalls (info_search_with_llm env keyword model version s).2 - netCalls s

/-- The script stage retries, same reading (the upstream info artifact is
present so the stage reaches its call). -/
def C4_script_retries : Prop :=
  ∀ (env : Env) (keyword pv : String) (t : ℚ) (model k content : String) (s : S),
    env.openai_api_key = some k → ¬k = "" →
    (∀ i, env.chat_completions_create i = .error "boom") →
    fsRead? s (info_markdown_path keyword "outputs/info") = some (.text content) →
    2 ≤ netCalls (script_gen_run env keyword none none pv false t model s).2 - netCalls s

/-- The audio stage retries (with at least two attempts allowed). -/
def C4_audio_retries : Prop :=
  ∀ (env : Env) (text p voice model k : String) (N : Nat) (s : S),
    2 ≤ N → env.gemini_api_key = some k → ¬k = "" →
    (∀ i, env.tts_attempt i = .error "boom") →
    2 ≤ netCalls (generate_audio_gemini env text p voice model N s).2 - netCalls s

/-- Claim C4 as stated: all three stage executors apply the same bounded
retry contract to their external call. -/
def C4_claim : Prop := C4_info_retries ∧ C4_script_retries ∧ C4_audio_retries

/-- Attempt-count part of claim C5: with max_retries = N and an
always-raising call, exactly N attempts occur. -/
def C5_attempts_part : Prop :=
  ∀ (env : Env) (f : Nat → String) (N : Nat) (text p voice model k : String) (s : S),
    1 ≤ N → env.gemini_api_key = some k → ¬k = "" →
    (∀ i, env.tts_attempt i = .error (f i)) →
    netCalls (generate_audio_gemini env text p voice model N s).2 = netCalls s + N

/-- Terminal-error part of claim C5: after exhaustion the raised error wraps
the last underlying error (and names max_retries). -/
def C5_wrap_part : Prop :=
  ∀ (env : Env) (f : Nat → String) (N : Nat) (text p voice model k : String) (s : S),
    1 ≤ N → env.gemini_api_key = some k → ¬k = "" →
    (∀ i, env.tts_attempt i = .error (f i)) →
    (generate_audio_gemini env text p voice model N s).1 =
      .error (.ttsExhausted N (f (N - 1)))

/-- Delay part of claim C5 as stated: the realized delays between consecutive
attempts are non-decreasing up to the cap, for every admissible jitter draw
(full_jitter draws each wait uniformly from [0, pre-jitter wait]; max_wait
defaults to 60). -/
def C5_delays_part : Prop :=
  ∀ (u : Nat → ℚ), (∀ t, 0 ≤ u t ∧ u t ≤ 1) →
    ∀ n, List.Chain' (· ≤ ·) (jitteredDelays u 60 n)

def C5_claim : Prop := C5_attempts_part ∧ C5_wrap_part ∧ C5_delays_part

/-- Script-stage instance of claim C6: when the info artifact exists but is
whitespace-only, the script stage fails before making any network call
(exactly as it would for a missing artifact). -/
def C6_script_part : Prop :=
  ∀ (env : Env) (keyword pv : String) (t : ℚ) (model k content : String) (s : S),
    env.openai_api_key = some k → ¬k = "" →
    pyStrip content.toList = [] →
    fsRead? s (info_markdown_path keyword "outputs/info") = some (.text content) →
    (∃ e, (script_gen_run env keyword none none pv false t model s).1 = .error e) ∧
    netCalls (script_gen_run env keyword none none pv false t model s).2 = netCalls s

/-- Audio-stage instance of claim C6: the script reader rejects a
whitespace-only script like a missing one (it is a pure read, so no network
call is possible before the stage fails). -/
def C6_audio_part : Prop :=
  ∀ (s : S) (p content : String),
    pyStrip content.toList = [] →
    fsRead? s p = some (.text content) →
    ∃ e, read_script s p = .error e

def C6_claim : Prop := C6_script_part ∧ C6_audio_part

def sC6 : S := fsWrite sEmpty "outputs/info/k1.md" (FileData.text "")

/-- Script-stage instance of claim C8 (the claim asserts a sidecar next to
every artifact of every stage, so in particular next to a script artifact
produced by a dry run). -/
def C8_claim : Prop :=
  ∀ (env : Env) (keyword pv : String) (t : ℚ) (model : String) (s : S) (p : String),
    (script_gen_run env keyword none none pv true t model s).1 = .ok p →
    (fsRead? (script_gen_run env keyword none none pv true t model s).2
      (metadata_sidecar_path p)).isSome = true

/-- A two-entry track whose first entry fails (with no credential configured,
the info stage raises ValueError; under claim C1 this is the k = 1 case:
every earlier entry — there is none — succeeded). -/
def trackC1 : TrackConfig :=
  { track_name := "t", description := none, metadata := none, defaults := none,
    files := [[("output_name", .vStr "a"), ("keyword", .vStr "k1")],
              [("output_name", .vStr "b"), ("keyword", .vStr "k2")]] }

/-- The track of the claim: one file, output_name x, keyword Gyeongju Bell,
dry_run true. -/
def trackC3 : TrackConfig :=
  { track_name := "demo", description := none, metadata := none, defaults := none,
    files := [[("output_name", .vStr "x"), ("keyword", .vStr "Gyeongju Bell"),
               ("dry_run", .vBool true)]] }

/-- The two bytes struct.pack "<H" emits for an in-range value. -/
def u16bytes (n : Int) : List Nat := [n.toNat % 256, n.toNat / 256]

/-- The four bytes struct.pack "<I" emits for an in-range value. -/
def u32bytes (n : Int) : List Nat :=
  [n.toNat % 256, n.toNat / 256 % 256, n.toNat / 65536 % 256, n.toNat / 16777216 % 256]

/-- The full output of convert_to_wav for data `d` and parsed parameters `p`:
the 44 header bytes (RIFF, ChunkSize, WAVE, fmt chunk, data chunk header)
followed by the data, with each multi-byte field little-endian. -/
def wavBytes (d : List Nat) (p : AudioParams) : List Nat :=
  let cs := (36 + (d.length : Int)).toNat
  let ba := (1 * Int.fdiv p.bits_per_sample 8).toNat
  let br := (p.rate * (1 * Int.fdiv p.bits_per_sample 8)).toNat
  let sr := p.rate.toNat
  let bps := p.bits_per_sample.toNat
  let ds := ((d.length : Int)).toNat
  82 :: 73 :: 70 :: 70 ::
  cs % 256 :: cs / 256 % 256 :: cs / 65536 % 256 :: cs / 16777216 % 256 ::
  87 :: 65 :: 86 :: 69 ::
  102 :: 109 :: 116 :: 32 ::
  16 :: 0 :: 0 :: 0 ::
  1 :: 0 ::
  1 :: 0 ::
  sr % 256 :: sr / 256 % 256 :: sr / 65536 % 256 :: sr / 16777216 % 256 ::
  br % 256 :: br / 256 % 256 :: br / 65536 % 256 :: br / 16777216 % 256 ::
  ba % 256 :: ba / 256 ::
  bps % 256 :: bps / 256 ::
  100 :: 97 :: 116 :: 97 ::
  ds % 256 :: ds / 256 % 256 :: ds / 65536 % 256 :: ds / 16777216 % 256 ::
  d

/-- No parameter of the MIME type triggers the rate= or audio/L branches of
parse_audio_mime_type. -/
def mimeNoSizeParams (m : String) : Prop :=
  ∀ part ∈ splitOnChar ';' m.toList,
    startsWithList ("rate=".toList) (lowerList (pyStrip part)) = false ∧
    startsWithList ("audio/L".toList) (pyStrip part) = false

/-- Claim C10 as stated: for EVERY byte string and MIME type the function
returns the 44-byte-headed WAV container with the claimed size fields, and
defaults to 16 bits / 24000 Hz / mono when the MIME type carries no rate= or
audio/L parameter. -/
def C10_claim : Prop :=
  ∀ (d : List Nat) (m : String), ∃ w,
    convert_to_wav d m = some w ∧
    w.length = 44 + d.length ∧
    w.take 4 = riffTag ∧
    (w.drop 4).take 4 = u32bytes (36 + (d.length : Int)) ∧
    (w.drop 40).take 4 = u32bytes ((d.length : Int)) ∧
    w.drop 44 = d ∧
    (mimeNoSizeParams m →
      (w.drop 22).take 2 = u16bytes 1 ∧
      (w.drop 24).take 4 = u32bytes 24000 ∧
      (w.drop 34).take 2 = u16bytes 16)

/-! ## Dictionary lemmas -/

theorem dictLookup_dictSet_self (d : Dict) (k : String) (v : ConfigVal) :
    dictLookup (dictSet d k v) k = some v := by
  induction d with
  | nil => simp [dictSet, dictLookup]
  | cons kv rest ih =>
    obtain ⟨k0, v0⟩ := kv
    by_cases h : k0 = k <;> simp [dictSet, dictLookup, h, ih]

theorem dictLookup_dictSet_ne (d : Dict) (k : String) (v : ConfigVal) (q : String)
    (h : q ≠ k) : dictLookup (dictSet d k v) q = dictLookup d q := by
  have h' : ¬k = q := fun hh => h hh.symm
  induction d with
  | nil => simp [dictSet, dictLookup, h']
  | cons kv rest ih =>
    obtain ⟨k0, v0⟩ := kv
    by_cases h0 : k0 = k
    · subst h0
      simp [dictSet, dictLookup, h']
    · simp [dictSet, dictLookup, h0, ih]

theorem dictLookup_dictUpdate_of_none (d e : Dict) (k : String)
    (h : dictLookup e k = none) : dictLookup (dictUpdate d e) k = dictLookup d k := by
  induction e generalizing d with
  | nil => simp [dictUpdate]
  | cons kv rest ih =>
    obtain ⟨k0, v0⟩ := kv
    have h1 : ¬(k0 = k) := by
      intro hh
      simp [dictLookup, hh] at h
    have h2 : dictLookup rest k = none := by
      simpa [dictLookup, h1] using h
    have step : dictUpdate d ((k0, v0) :: rest) = dictUpdate (dictSet d k0 v0) rest := by
      simp [dictUpdate]
    rw [step, ih (dictSet d k0 v0) h2,
        dictLookup_dictSet_ne d k0 v0 k (fun hh => h1 hh.symm)]

/-! ## C9: run_batch mutates the caller's defaults dict in place -/

/-- Claim C9: when run_batch is given a non-None override_dry_run and the
track configuration holds a defaults map, the caller's configuration is
mutated in place: afterwards (whether the call returned or raised, which this
embedding renders by returning the final configuration on every path)
defaults["dry_run"] equals the override, every other defaults key is
untouched, and no other field of the configuration changes (the returned
configuration is the input with only its defaults field replaced). -/
theorem C9_run_batch_mutates_defaults_in_place
    (env : Env) (cfg : TrackConfig) (d : Dict) (v : Bool) (s : S)
    (hd : cfg.defaults = some d) :
    (run_batch env cfg (some v) s).2.1 =
      { cfg with defaults := some (dictSet d "dry_run" (.vBool v)) } ∧
    dictLookup (dictSet d "dry_run" (.vBool v)) "dry_run" = some (.vBool v) ∧
    (∀ k, k ≠ "dry_run" →
      dictLookup (dictSet d "dry_run" (.vBool v)) k = dictLookup d k) := by
  refine ⟨?_, dictLookup_dictSet_self d _ _, fun k hk => dictLookup_dictSet_ne d _ _ k hk⟩
  simp [run_batch, hd]

theorem C9_witness :
    cfgC9.defaults = some cfgC9defaults ∧
    ((run_batch envNoKeys cfgC9 (some true) sEmpty).2.1 =
      { cfgC9 with defaults := some (dictSet cfgC9defaults "dry_run" (.vBool true)) } ∧
     dictLookup (dictSet cfgC9defaults "dry_run" (.vBool true)) "dry_run" =
       some (.vBool true) ∧
     (∀ k, k ≠ "dry_run" →
       dictLookup (dictSet cfgC9defaults "dry_run" (.vBool true)) k =
         dictLookup cfgC9defaults k)) :=
  ⟨rfl, C9_run_batch_mutates_defaults_in_place envNoKeys cfgC9 cfgC9defaults true sEmpty rfl⟩

/-! ## C2: override_dry_run versus an entry-level dry_run -/

/-- The claim fails at the concrete entry that sets dry_run itself: with
override true, entry {dry_run: false} still runs with dry_run false, because
merge_file_config lets the entry win over the (overridden) defaults. -/
theorem C2_counterexample : ¬C2_claim := by
  intro h
  exact absurd (h [("dry_run", .vBool false)] [] true) (by decide)

/-- Amended C2: the override unconditionally replaces the defaults' dry_run,
so it governs every entry that does not itself bind dry_run; an entry-level
dry_run still takes precedence over the override. -/
theorem C2_override_governs_entries_without_dry_run
    (entry defaults : Dict) (v : Bool)
    (h : dictLookup entry "dry_run" = none) :
    single_file_dry_run (merge_file_config entry (dictSet defaults "dry_run" (.vBool v))) = v := by
  unfold single_file_dry_run merge_file_config dictGetD
  rw [dictLookup_dictUpdate_of_none _ _ _ h, dictLookup_dictSet_self]
  cases v <;> rfl

theorem C2_witness :
    dictLookup [("output_name", ConfigVal.vStr "a")] "dry_run" = none ∧
    single_file_dry_run (merge_file_config [("output_name", ConfigVal.vStr "a")]
      (dictSet [("dry_run", ConfigVal.vBool false)] "dry_run" (.vBool true))) = true :=
  ⟨by decide,
   C2_override_governs_entries_without_dry_run
     [("output_name", ConfigVal.vStr "a")] [("dry_run", ConfigVal.vBool false)] true (by decide)⟩

/-! ## Retry loop and wait schedule lemmas -/

theorem retryGo_always_fails (call : Nat → Except String α) (f : Nat → String)
    (hc : ∀ i, call i = .error (f i)) (max_tries : Nat) :
    ∀ fuel tries, tries + fuel = max_tries → 1 ≤ fuel →
      retryGo call max_tries fuel tries = (.error (f (max_tries - 1)), fuel) := by
  intro fuel
  induction fuel with
  | zero => intro tries _ h1; omega
  | succ n ih =>
    intro tries h _
    by_cases hb : tries + 1 = max_tries
    · have hbeq : ((tries + 1 == max_tries) = true) := by simp [hb]
      have hfe : f tries = f (max_tries - 1) := by
        rw [show tries = max_tries - 1 by omega]
      have hn : n = 0 := by omega
      subst hn
      simp [retryGo, hc, hbeq, hfe]
    · have hb' : ((tries + 1 == max_tries) = false) := by
        simp [hb]
      have hrec := ih (tries + 1) (by omega) (by omega)
      simp [retryGo, hc, hb', hrec]

theorem retryRun_always_fails (call : Nat → Except String α) (f : Nat → String)
    (hc : ∀ i, call i = .error (f i)) (N : Nat) (hN : 1 ≤ N) :
    retryRun call N = (.error (f (N - 1)), N) := by
  unfold retryRun
  exact retryGo_always_fails call f hc N N 0 (by omega) hN

theorem expoWait_le_succ (maxW : ℚ) (t : Nat) :
    expoWait maxW t ≤ expoWait maxW (t + 1) := by
  unfold expoWait
  have hpow : (2 : ℚ) ^ t ≤ (2 : ℚ) ^ (t + 1) :=
    pow_le_pow_right₀ (by norm_num) (by omega)
  by_cases h1 : (2 : ℚ) ^ t < maxW
  · by_cases h2 : (2 : ℚ) ^ (t + 1) < maxW
    · simp [h1, h2, hpow]
    · simp [h1, h2, le_of_lt h1]
  · have h2 : ¬(2 : ℚ) ^ (t + 1) < maxW := fun hh => h1 (lt_of_le_of_lt hpow hh)
    simp [h1, h2]

theorem expoWait_monotone (maxW : ℚ) : Monotone (expoWait maxW) :=
  monotone_nat_of_le_succ (expoWait_le_succ maxW)

theorem expoWait_nonneg (maxW : ℚ) (hW : 0 ≤ maxW) (t : Nat) :
    0 ≤ expoWait maxW t := by
  unfold expoWait
  split
  · positivity
  · exact hW

/-! ## Effect counting lemmas -/

theorem info_validate_api_key_snd (env : Env) (s : S) :
    (info_validate_api_key env s).2 = addEff s .credRead := by
  unfold info_validate_api_key
  rcases env.openai_api_key with _ | k
  · rfl
  · by_cases hke : k = "" <;> simp [hke]

theorem netCalls_addEff_credRead (s : S) : netCalls (addEff s .credRead) = netCalls s := by
  simp [netCalls, addEff, List.countP_append, List.countP_cons]

theorem netCalls_addEff_netCall (s : S) : netCalls (addEff s .netCall) = netCalls s + 1 := by
  simp [netCalls, addEff, List.countP_append, List.countP_cons]

theorem netCalls_fsWrite (s : S) (p : String) (d : FileData) :
    netCalls (fsWrite s p d) = netCalls s := rfl

theorem countP_replicate_netCall (n : Nat) :
    (List.replicate n Eff.netCall).countP (fun e => e == Eff.netCall) = n := by
  induction n with
  | zero => simp
  | succ m ih => simp [List.replicate, List.countP_cons, ih]

/-! ## C4: which stages retry a failing external call -/

/-- The claim fails at the info stage: with the credential set and a call
that always raises, info_search_with_llm makes exactly one attempt and
re-raises; nothing retries it. -/
theorem C4_counterexample : ¬C4_claim := by
  intro h
  exact absurd
    (h.1 envApisDown "k1" "gpt-4.1" "default" "key" sEmpty rfl (by decide) (fun i => rfl))
    (by decide)

/-- Amended C4: only the audio stage retries. The info and script stages make
at most one call per invocation (their exceptions propagate immediately),
while the audio stage's backoff wrapper makes exactly max_retries attempts
against an always-failing call. -/
theorem C4_retry_only_in_audio_stage :
    (∀ (env : Env) (keyword model version : String) (s : S),
      netCalls (info_search_with_llm env keyword model version s).2 ≤ netCalls s + 1) ∧
    (∀ (env : Env) (keyword : String) (idir odir : Option String) (pv : String)
        (dry : Bool) (t : ℚ) (model : String) (s : S),
      netCalls (script_gen_run env keyword idir odir pv dry t model s).2 ≤ netCalls s + 1) ∧
    (∀ (env : Env) (text p voice model : String) (N : Nat) (s : S) (k : String)
        (f : Nat → String),
      1 ≤ N → env.gemini_api_key = some k → ¬k = "" →
      (∀ i, env.tts_attempt i = .error (f i)) →
      netCalls (generate_audio_gemini env text p voice model N s).2 = netCalls s + N) := by
  refine ⟨?_, ?_, ?_⟩
  · intro env keyword model version s
    unfold info_search_with_llm
    rcases hk : info_validate_api_key env s with ⟨r, s1⟩
    have hs1 : s1 = addEff s .credRead := by
      rw [← info_validate_api_key_snd env s, hk]
    subst hs1
    rcases r with e | k
    · simp [netCalls_addEff_credRead]
    · rcases env.load_prompt_info version with e | u
      · simp [netCalls_addEff_credRead]
      · rcases hr : env.responses_create (netCalls s) with m | c <;>
          simp [hr, netCalls_addEff_netCall, netCalls_addEff_credRead]
  · intro env keyword idir odir pv dry t model s
    unfold script_gen_run
    rcases env.load_prompt_script pv with e | u
    · simp
    · by_cases hd : dry
      · simp [hd, netCalls_fsWrite]
      · simp only [hd, if_false, Bool.false_eq_true]
        rcases fsRead? s (info_markdown_path keyword (idir.getD "outputs/info")) with _ | fd
        · simp
        · rcases hko : env.openai_api_key with _ | k
          · simp [hko, netCalls_addEff_credRead]
          · by_cases hke : (k == "") = true
            · simp [hko, hke, netCalls_addEff_credRead]
            · rcases hc : env.chat_completions_create (netCalls (addEff s .credRead)) with m | c <;>
                simp [hko, hke, hc, netCalls_fsWrite, netCalls_addEff_netCall,
                      netCalls_addEff_credRead]
  · intro env text p voice model N s k f hN hk hke hf
    unfold generate_audio_gemini
    rw [hk]
    have hkf : (k == "") = false := by
      simpa using hke
    rw [retryRun_always_fails env.tts_attempt f hf N hN]
    simp [hkf, netCalls, addEff, List.countP_append, List.countP_cons,
          countP_replicate_netCall]

/-- Concrete check of the amended C4 at explicit inputs: the info stage makes
exactly one network call and fails, the audio stage makes exactly three with
max_retries = 3. -/
theorem C4_retry_witness :
    netCalls (info_search_with_llm envApisDown "k1" "gpt-4.1" "default" sEmpty).2 = 1 ∧
    (info_search_with_llm envApisDown "k1" "gpt-4.1" "default" sEmpty).1 =
      .error (.api "boom") ∧
    netCalls (generate_audio_gemini envApisDown "text" "p.mp3" "Zephyr" "m" 3 sEmpty).2 = 3 := by
  refine ⟨by decide, by rfl, ?_⟩
  have h := C4_retry_only_in_audio_stage.2.2 envApisDown "text" "p.mp3" "Zephyr" "m" 3 sEmpty
    "key" (fun _ => "boom") (by omega) rfl (by decide) (fun i => rfl)
  simpa using h

/-! ## C5: audio retry exhaustion, terminal wrap, delay schedule -/

/-- The delay part fails at a concrete jitter draw: full jitter may draw the
whole first wait (1) and zero of the second (0), so the realized delays
decrease. -/
theorem C5_counterexample : ¬C5_claim := by
  intro h
  have hu : ∀ t, (0 : ℚ) ≤ (if t = 0 then 1 else 0) ∧ (if t = 0 then (1 : ℚ) else 0) ≤ 1 := by
    intro t
    cases t <;> simp
  have hd := h.2.2 (fun t => if t = 0 then 1 else 0) hu 2
  have hlist : jitteredDelays (fun t => if t = 0 then (1 : ℚ) else 0) 60 2 = [1, 0] := by
    norm_num [jitteredDelays, expoWait, List.range_succ]
  rw [hlist] at hd
  exact absurd hd (by norm_num [List.chain'_cons])

/-- Amended C5: exactly N attempts and a terminal error wrapping the last
underlying failure, as claimed; but only the pre-jitter backoff schedule is
non-decreasing up to the max_wait cap, while each realized delay is a jittered
value between 0 and that schedule and need not be monotone. -/
theorem C5_retry_exhaustion_contract :
    C5_attempts_part ∧ C5_wrap_part ∧
    (∀ maxW : ℚ, Monotone (expoWait maxW)) ∧
    (∀ (u : Nat → ℚ) (maxW : ℚ) (t : Nat),
      0 ≤ u t → u t ≤ 1 → 0 ≤ maxW →
      0 ≤ u t * expoWait maxW t ∧ u t * expoWait maxW t ≤ expoWait maxW t) := by
  have key : ∀ (env : Env) (f : Nat → String) (N : Nat)
      (text p voice model k : String) (s : S),
      1 ≤ N → env.gemini_api_key = some k → ¬k = "" →
      (∀ i, env.tts_attempt i = .error (f i)) →
      generate_audio_gemini env text p voice model N s =
        (.error (.ttsExhausted N (f (N - 1))),
         { fs := s.fs, effs := (s.effs ++ [Eff.credRead]) ++ List.replicate N .netCall }) := by
    intro env f N text p voice model k s hN hk hke hf
    unfold generate_audio_gemini
    rw [hk]
    have hkf : (k == "") = false := by simpa using hke
    rw [retryRun_always_fails env.tts_attempt f hf N hN]
    simp [hkf, addEff]
  refine ⟨?_, ?_, expoWait_monotone, ?_⟩
  · intro env f N text p voice model k s hN hk hke hf
    rw [key env f N text p voice model k s hN hk hke hf]
    simp [netCalls, List.countP_append, List.countP_cons, countP_replicate_netCall]
  · intro env f N text p voice model k s hN hk hke hf
    rw [key env f N text p voice model k s hN hk hke hf]
  · intro u maxW t hu0 hu1 hW
    have he : 0 ≤ expoWait maxW t := expoWait_nonneg maxW hW t
    constructor
    · exact mul_nonneg hu0 he
    · calc u t * expoWait maxW t ≤ 1 * expoWait maxW t :=
            mul_le_mul_of_nonneg_right hu1 he
        _ = expoWait maxW t := one_mul _

/-- Concrete check of amended C5: max_retries = 3 against an always-failing
call makes exactly 3 attempts and raises the wrap of the last error. -/
theorem C5_retry_witness :
    (generate_audio_gemini envApisDown "text" "p.mp3" "Zephyr" "m" 3 sEmpty).1 =
      .error (.ttsExhausted 3 "boom") ∧
    netCalls (generate_audio_gemini envApisDown "text" "p.mp3" "Zephyr" "m" 3 sEmpty).2 = 3 := by
  constructor
  · have h := C5_retry_exhaustion_contract.2.1 envApisDown (fun _ => "boom") 3
      "text" "p.mp3" "Zephyr" "m" "key" sEmpty (by omega) rfl (by decide) (fun i => rfl)
    simpa using h
  · have h := C5_retry_exhaustion_contract.1 envApisDown (fun _ => "boom") 3
      "text" "p.mp3" "Zephyr" "m" "key" sEmpty (by omega) rfl (by decide) (fun i => rfl)
    simpa using h

/-! ## Filesystem read/write lemmas -/

theorem fsRead?_fsWrite_self (s : S) (p : String) (d : FileData) :
    fsRead? (fsWrite s p d) p = some d := by
  simp [fsRead?, fsWrite]

/-! ## C6: empty upstream artifacts versus missing upstream artifacts -/

/-- The claim fails on the script stage: with a working credential and
service, an existing-but-empty info artifact is read and the stage proceeds
to make its network call (and even succeeds), instead of failing like a
missing artifact. -/
theorem C6_counterexample : ¬C6_claim := by
  intro h
  have hc := (h.1 envApisUp "k1" "v1" (7 / 10) "m" "key" "" sC6 rfl (by decide) rfl
    (by rfl)).2
  exact absurd hc (by decide)

/-- Amended C6: only the audio stage's script reader treats an empty or
whitespace-only upstream artifact like a missing one (ValueError next to
FileNotFoundError, both before any network activity); the script stage checks
only existence, and with an empty info artifact it still performs its LLM
call with the empty content. -/
theorem C6_only_audio_rejects_empty_upstream :
    (∀ (s : S) (p : String), fsRead? s p = none → read_script s p = .error .fileNotFound) ∧
    (∀ (s : S) (p content : String), pyStrip content.toList = [] →
      fsRead? s p = some (.text content) → read_script s p = .error .valueError) ∧
    (∀ (env : Env) (keyword pv : String) (t : ℚ) (model k content out : String) (s : S),
      env.load_prompt_script pv = .ok () →
      env.openai_api_key = some k → ¬(k == "") = true →
      env.chat_completions_create (netCalls s) = .ok out →
      pyStrip content.toList = [] →
      fsRead? s (info_markdown_path keyword "outputs/info") = some (.text content) →
      (script_gen_run env keyword none none pv false t model s).1 =
        .ok (script_markdown_path keyword "outputs/script") ∧
      netCalls (script_gen_run env keyword none none pv false t model s).2 =
        netCalls s + 1) := by
  refine ⟨?_, ?_, ?_⟩
  · intro s p h
    simp [read_script, h]
  · intro s p content hemp h
    have hemp' : pyStrip content.data = [] := hemp
    simp [read_script, h, hemp']
  · intro env keyword pv t model k content out s hlp hk hke hcall hemp hinfo
    have hcall' : env.chat_completions_create (netCalls (addEff s .credRead)) = .ok out := by
      rw [netCalls_addEff_credRead]
      exact hcall
    unfold script_gen_run
    rw [hlp]
    simp only [Option.getD]
    constructor
    · simp [hinfo, hk, hke, hcall']
    · simp [hinfo, hk, hke, hcall, hcall', netCalls_fsWrite, netCalls_addEff_netCall,
            netCalls_addEff_credRead]

/-- Concrete check: the script stage run on an existing empty info artifact
succeeds and makes exactly one network call. -/
theorem C6_empty_info_witness :
    (script_gen_run envApisUp "k1" none none "v1" false (7 / 10) "m" sC6).1 =
      .ok "outputs/script/k1_script.md" ∧
    netCalls (script_gen_run envApisUp "k1" none none "v1" false (7 / 10) "m" sC6).2 = 1 ∧
    read_script sC6 "outputs/info/k1.md" = .error .valueError := by
  refine ⟨?_, ?_, ?_⟩
  · have h := (C6_only_audio_rejects_empty_upstream.2.2 envApisUp "k1" "v1" (7 / 10) "m"
      "key" "" "generated script" sC6 rfl rfl (by decide) rfl rfl (by rfl)).1
    simpa using h
  · have h := (C6_only_audio_rejects_empty_upstream.2.2 envApisUp "k1" "v1" (7 / 10) "m"
      "key" "" "generated script" sC6 rfl rfl (by decide) rfl rfl (by rfl)).2
    simpa using h
  · rfl

/-! ## C8: metadata sidecars -/

/-- The claim fails on the script stage: a dry run writes the script artifact
and returns, with no sidecar written next to it. -/
theorem C8_counterexample : ¬C8_claim := by
  intro h
  have hc := h envNoKeys "k1" "v1" (7 / 10) "m" sEmpty "outputs/script/k1_script.md" (by rfl)
  exact absurd hc (by decide)

/-- Amended C8: the metadata recorder itself writes the sidecar at
artifact-path + ".metadata.json" with keyword, pipeline, mode, model and the
artifact's size (when the artifact exists), and the info and audio stages
invoke it after saving; but the script stage never calls it, so script
artifacts are written without a sidecar. -/
theorem C8_sidecar_not_written_by_script_stage :
    (∀ (s : S) (p : String) (fd : FileData) (kw pl mode : String)
        (model : Option String) (extra : List (String × ConfigVal)),
      fsRead? s p = some fd →
      fsRead? (create_metadata_write kw pl p mode model extra s) (metadata_sidecar_path p) =
        some (.meta ⟨kw, pl, mode, model, some (fileSize fd), extra⟩)) ∧
    ((script_gen_run envNoKeys "k1" none none "v1" true (7 / 10) "m" sEmpty).1 =
      .ok "outputs/script/k1_script.md") ∧
    fsRead? (script_gen_run envNoKeys "k1" none none "v1" true (7 / 10) "m" sEmpty).2
      "outputs/script/k1_script.md.metadata.json" = none := by
  refine ⟨?_, by rfl, by rfl⟩
  intro s p fd kw pl mode model extra h
  unfold create_metadata_write
  rw [h]
  exact fsRead?_fsWrite_self _ _ _

/-- Concrete check of the sidecar writer at an explicit input. -/
theorem C8_sidecar_witness :
    fsRead? sC6 "outputs/info/k1.md" = some (FileData.text "") ∧
    fsRead? (create_metadata_write "k1" "info_retrieval" "outputs/info/k1.md" "dry_run"
        none [] sC6) "outputs/info/k1.md.metadata.json" =
      some (.meta ⟨"k1", "info_retrieval", "dry_run", none, some 0, []⟩) :=
  ⟨by rfl,
   C8_sidecar_not_written_by_script_stage.1 sC6 "outputs/info/k1.md" (FileData.text "")
     "k1" "info_retrieval" "dry_run" none [] (by rfl)⟩

/-! ## C1: the failed RunRecord and the batch report -/

/-- Claim C1 predicts a batch_report.json whose files list holds exactly one
RunRecord (the failed first entry). The code aborts the batch, never appends
the locally built failed record (run_single_file raises before returning it),
and writes a report with an empty files list and failed = 0; the second entry
is indeed never attempted. -/
theorem C1_failed_record_never_reaches_report :
    (run_batch envNoKeys trackC1 none sEmpty).1 = .error (.batchError "a" .valueError) ∧
    fsRead? (run_batch envNoKeys trackC1 none sEmpty).2.2 "outputs/tracks/t/batch_report.json" =
      some (.reportFile ⟨"t", .vStr "", [], 0, 0, 0, []⟩) ∧
    itemStarts (run_batch envNoKeys trackC1 none sEmpty).2.2 "a" = 1 ∧
    itemStarts (run_batch envNoKeys trackC1 none sEmpty).2.2 "b" = 0 :=
  ⟨by rfl, by rfl, by decide, by decide⟩

/-! ## C3: the demo dry-run track end to end -/

/-- Claim C3 predicts a clean end-to-end run: x.* artifacts under
outputs/tracks/demo/{info,script,audio}/ and a report with successful = 1.
The code fails at the first stage: info_retrieval.run passes three arguments
to the 2-parameter info_markdown_path, raising TypeError before writing
anything, so the batch aborts with zero artifacts, a report with
successful = 0 and an empty files list. Zero network calls and zero
credential reads do occur, as claimed. -/
theorem C3_demo_track_aborts_with_type_error :
    (run_batch envNoKeys trackC3 none sEmpty).1 = .error (.batchError "x" .typeError) ∧
    (run_batch envNoKeys trackC3 none sEmpty).2.2.fs =
      [("outputs/tracks/demo/batch_report.json",
        .reportFile ⟨"demo", .vStr "", [], 0, 0, 0, []⟩)] ∧
    netCalls (run_batch envNoKeys trackC3 none sEmpty).2.2 = 0 ∧
    credReads (run_batch envNoKeys trackC3 none sEmpty).2.2 = 0 :=
  ⟨by rfl, by rfl, by rfl, by rfl⟩

/-! ## C7: dry-run stage behavior -/

/-- Claim C7 predicts that every stage under dry_run makes no network call,
reads no credential, writes a non-empty placeholder artifact and returns its
path. The no-network and no-credential parts hold, but the info and audio
stages raise TypeError (three arguments to the 2-parameter path helpers)
before writing their placeholder; only the script stage (invoked directly,
without the phantom output_name keyword its repository callers pass) writes
its non-blank placeholder and returns its path. -/
theorem C7_dry_run_placeholder_stages :
    (info_retrieval_run envNoKeys "Gyeongju Bell" (some "outputs/info") "gpt-4.1"
        "default" true (some "x") sEmpty = (.error .typeError, sEmpty)) ∧
    (audio_gen_run envNoKeys "Gyeongju Bell" none none "Zephyr"
        "gemini-2.5-pro-preview-tts" 8 true (some "x") sEmpty =
      (.error .typeError, sEmpty)) ∧
    ((script_gen_run envNoKeys "Gyeongju Bell" none none "v2-tts" true (7 / 10)
        "gpt-4.1" sEmpty).1 = .ok "outputs/script/Gyeongju Bell_script.md") ∧
    fsRead? (script_gen_run envNoKeys "Gyeongju Bell" none none "v2-tts" true (7 / 10)
        "gpt-4.1" sEmpty).2 "outputs/script/Gyeongju Bell_script.md" =
      some (.text (generate_dry_run_script "Gyeongju Bell" "v2-tts")) ∧
    0 < (pyStrip (generate_dry_run_script "Gyeongju Bell" "v2-tts").toList).length ∧
    netCalls (script_gen_run envNoKeys "Gyeongju Bell" none none "v2-tts" true (7 / 10)
        "gpt-4.1" sEmpty).2 = 0 ∧
    credReads (script_gen_run envNoKeys "Gyeongju Bell" none none "v2-tts" true (7 / 10)
        "gpt-4.1" sEmpty).2 = 0 :=
  ⟨by rfl, by rfl, by rfl, by rfl, by decide, by rfl, by rfl⟩

/-! ## C10: convert_to_wav byte layout -/

theorem u16le?_eq_some (n : Int) (h0 : 0 ≤ n) (h1 : n < 65536) :
    u16le? n = some (u16bytes n) := by
  simp [u16le?, u16bytes, h0, h1]

theorem u32le?_eq_some (n : Int) (h0 : 0 ≤ n) (h1 : n < 4294967296) :
    u32le? n = some (u32bytes n) := by
  simp [u32le?, u32bytes, h0, h1]

theorem parseParam_of_no_params (p : AudioParams) (part : List Char)
    (h1 : startsWithList ("rate=".toList) (lowerList (pyStrip part)) = false)
    (h2 : startsWithList ("audio/L".toList) (pyStrip part) = false) :
    parseParam p part = p := by
  have h1' : startsWithList ['r', 'a', 't', 'e', '='] (lowerList (pyStrip part)) = false := h1
  have h2' : startsWithList ['a', 'u', 'd', 'i', 'o', '/', 'L'] (pyStrip part) = false := h2
  unfold parseParam
  simp [h1, h2, h1', h2']

theorem foldl_parseParam_of_no_params (parts : List (List Char)) (p : AudioParams)
    (h : ∀ part ∈ parts,
      startsWithList ("rate=".toList) (lowerList (pyStrip part)) = false ∧
      startsWithList ("audio/L".toList) (pyStrip part) = false) :
    parts.foldl parseParam p = p := by
  induction parts generalizing p with
  | nil => rfl
  | cons a rest ih =>
    have ha := h a (List.mem_cons_self a rest)
    rw [List.foldl_cons, parseParam_of_no_params p a ha.1 ha.2]
    exact ih p (fun part hp => h part (List.mem_cons_of_mem a hp))

theorem parse_audio_mime_type_default (m : String) (h : mimeNoSizeParams m) :
    parse_audio_mime_type m = ⟨16, 24000⟩ := by
  unfold parse_audio_mime_type
  exact foldl_parseParam_of_no_params _ _ h

/-- convert_to_wav succeeds and equals wavBytes whenever every packed field is
in its struct range. -/
theorem convert_to_wav_eq_wavBytes (d : List Nat) (m : String)
    (h36 : (d.length : Int) + 36 < 4294967296)
    (hr0 : 0 ≤ (parse_audio_mime_type m).rate)
    (hr1 : (parse_audio_mime_type m).rate < 4294967296)
    (hb0 : 0 ≤ (parse_audio_mime_type m).bits_per_sample)
    (hb1 : (parse_audio_mime_type m).bits_per_sample < 65536)
    (hba1 : 1 * Int.fdiv (parse_audio_mime_type m).bits_per_sample 8 < 65536)
    (hbr1 : (parse_audio_mime_type m).rate *
      (1 * Int.fdiv (parse_audio_mime_type m).bits_per_sample 8) < 4294967296) :
    convert_to_wav d m = some (wavBytes d (parse_audio_mime_type m)) := by
  have hlen : (0 : Int) ≤ (d.length : Int) := Int.ofNat_nonneg _
  have hfd0 : 0 ≤ Int.fdiv (parse_audio_mime_type m).bits_per_sample 8 :=
    Int.fdiv_nonneg hb0 (by norm_num)
  have hba0 : 0 ≤ 1 * Int.fdiv (parse_audio_mime_type m).bits_per_sample 8 := by linarith
  have hbr0 : 0 ≤ (parse_audio_mime_type m).rate *
      (1 * Int.fdiv (parse_audio_mime_type m).bits_per_sample 8) :=
    mul_nonneg hr0 hba0
  simp only [convert_to_wav]
  rw [u32le?_eq_some (36 + (d.length : Int)) (by linarith) (by linarith),
      u32le?_eq_some 16 (by norm_num) (by norm_num),
      u16le?_eq_some 1 (by norm_num) (by norm_num),
      u32le?_eq_some _ hr0 hr1,
      u32le?_eq_some _ hbr0 hbr1,
      u16le?_eq_some _ hba0 hba1,
      u16le?_eq_some _ hb0 hb1,
      u32le?_eq_some ((d.length : Int)) hlen (by linarith)]
  simp [wavBytes, u32bytes, u16bytes, riffTag, waveTag, fmtTag, dataTag]

/-- The claim fails for a data payload of 2^32 - 36 bytes: the ChunkSize
field overflows the "<I" format and struct.pack raises struct.error instead
of returning a container. -/
theorem C10_counterexample : ¬C10_claim := by
  intro h
  obtain ⟨w, hw, -⟩ := h (List.replicate 4294967260 0) "audio/mpeg"
  have hnone : convert_to_wav (List.replicate 4294967260 0) "audio/mpeg" = none := by
    norm_num [convert_to_wav, u32le?, List.length_replicate]
  rw [hnone] at hw
  exact Option.noConfusion hw

/-- Amended C10: the claimed layout holds whenever the packed fields are in
range — in particular whenever len(d) <= 2^32 - 37 and the MIME type carries
no rate=/audio/L parameter (then the header encodes 16 bits, 24000 Hz, one
channel); for larger payloads or out-of-range parsed parameters struct.pack
raises instead. -/
theorem C10_wav_header_contract :
    (∀ (d : List Nat) (p : AudioParams),
      (wavBytes d p).length = 44 + d.length ∧
      (wavBytes d p).take 4 = riffTag ∧
      ((wavBytes d p).drop 4).take 4 = u32bytes (36 + (d.length : Int)) ∧
      ((wavBytes d p).drop 40).take 4 = u32bytes ((d.length : Int)) ∧
      (wavBytes d p).drop 44 = d ∧
      ((wavBytes d p).drop 22).take 2 = u16bytes 1 ∧
      ((wavBytes d p).drop 24).take 4 = u32bytes p.rate ∧
      ((wavBytes d p).drop 34).take 2 = u16bytes p.bits_per_sample) ∧
    (∀ m : String, mimeNoSizeParams m → parse_audio_mime_type m = ⟨16, 24000⟩) ∧
    (∀ (d : List Nat) (m : String), mimeNoSizeParams m →
      (d.length : Int) + 36 < 4294967296 →
      convert_to_wav d m = some (wavBytes d ⟨16, 24000⟩)) := by
  refine ⟨?_, parse_audio_mime_type_default, ?_⟩
  · intro d p
    refine ⟨?_, by rfl, by rfl, by rfl, by rfl, by rfl, by rfl, by rfl⟩
    simp [wavBytes, u32bytes, u16bytes, riffTag, waveTag, fmtTag, dataTag]
    omega
  · intro d m hm h36
    have hp := parse_audio_mime_type_default m hm
    have hc := convert_to_wav_eq_wavBytes d m h36
      (by rw [hp]; decide) (by rw [hp]; decide) (by rw [hp]; decide)
      (by rw [hp]; decide) (by rw [hp]; decide) (by rw [hp]; decide)
    rw [hc, hp]

/-- Concrete check: a 3-byte payload and a parameter-free MIME type produce
the expected 47 bytes (RIFF, ChunkSize 39, 24000 Hz, 48000 B/s, 16 bits,
data size 3, payload unchanged). -/
theorem C10_wav_witness :
    convert_to_wav [1, 2, 3] "audio/mpeg" =
      some [82, 73, 70, 70, 39, 0, 0, 0, 87, 65, 86, 69, 102, 109, 116, 32,
            16, 0, 0, 0, 1, 0, 1, 0, 192, 93, 0, 0, 128, 187, 0, 0, 2, 0,
            16, 0, 100, 97, 116, 97, 3, 0, 0, 0, 1, 2, 3] ∧
    mimeNoSizeParams "audio/mpeg" :=
  ⟨by rfl, by unfold mimeNoSizeParams; decide⟩

end AudioGuide
